import Mathlib

/-!
Verification of the collision-physics task generator
(`src/config.py`, `src/generator.py`, `src/prompts.py`).

Python floats are modelled as exact rationals (`ℚ`), Python ints as `ℤ`/`ℕ`.
`int(x)` (truncation toward zero) is modelled by `pyInt`, and the draw of
`random.uniform(a, b)` resp. `random.choice` is made explicit as an extra
argument (`u` in `[0, 1]`, resp. an index).
-/

/-- Python `int(x)`: truncation toward zero. -/
def pyInt (q : ℚ) : ℤ :=
  if 0 ≤ q then ⌊q⌋ else ⌈q⌉

/-- Python `random.uniform(a, b)` = `a + (b - a) * random()`, with the hidden
draw `random()` made explicit as the argument `u ∈ [0, 1]`. -/
def pyUniform (a b u : ℚ) : ℚ :=
  a + (b - a) * u

/-- The fields of `TaskConfig` (`src/config.py`) that the simulation core
reads; purely visual settings (image size, label/arrow toggles) are not
consumed by the verified functions and are omitted. -/
structure Config where
  domain : String
  generateVideos : Bool
  videoFps : ℤ
  minMass : ℚ
  maxMass : ℚ
  minVelocity : ℚ
  maxVelocity : ℚ
  ballRadiusBase : ℤ
  collisionType : String
  simulationDuration : ℚ
  pixelsPerMeter : ℚ

/-- The defaults declared in `src/config.py`. -/
def defaultConfig : Config where
  domain := "collision_physics"
  generateVideos := true
  videoFps := 10
  minMass := 1
  maxMass := 5
  minVelocity := 2
  maxVelocity := 8
  ballRadiusBase := 30
  collisionType := "elastic"
  simulationDuration := 3
  pixelsPerMeter := 50

/-- The scenario dict returned by `_generate_collision_scenario`
(`src/generator.py`): masses/velocities/positions are floats, the radii are
ints (`_mass_to_radius` returns `int(...)`). -/
structure Scenario where
  massA : ℚ
  massB : ℚ
  velocityA : ℚ
  velocityB : ℚ
  radiusA : ℤ
  radiusB : ℤ
  posA : ℚ
  posB : ℚ

/-- Embedding of `_mass_to_radius` (`src/generator.py` lines 116-128): linear interpolation
between `ball_radius_base * 0.7` and `ball_radius_base * 1.3`, then `int(...)`. -/
def massToRadius (ballRadiusBase : ℤ) (minMass maxMass mass : ℚ) : ℤ :=
  let minRadius : ℚ := (ballRadiusBase : ℚ) * (7 / 10)
  let maxRadius : ℚ := (ballRadiusBase : ℚ) * (13 / 10)
  pyInt (minRadius + (maxRadius - minRadius) * ((mass - minMass) / (maxMass - minMass)))

/-- The radius described by the words of the spec: the exact (un-truncated) linear
interpolation between `0.7×base_radius` at `min_mass` and `1.3×base_radius`
at `max_mass`.  Kept separate from `massToRadius` to compare code and spec. -/
def specLinearRadius (ballRadiusBase minMass maxMass mass : ℚ) : ℚ :=
  ballRadiusBase * (7 / 10) +
    (ballRadiusBase * (13 / 10) - ballRadiusBase * (7 / 10)) *
      ((mass - minMass) / (maxMass - minMass))

/-- Embedding of `_generate_collision_scenario` (`src/generator.py` lines 83-114), with the
four hidden `random.uniform` draws made explicit as `u1 u2 u3 u4 ∈ [0, 1]`. -/
def generateCollisionScenario (cfg : Config) (u1 u2 u3 u4 : ℚ) : Scenario :=
  let massA := pyUniform cfg.minMass cfg.maxMass u1
  let massB := pyUniform cfg.minMass cfg.maxMass u2
  let velocityA := pyUniform cfg.minVelocity cfg.maxVelocity u3
  let velocityB := -(pyUniform cfg.minVelocity cfg.maxVelocity u4)
  { massA := massA
    massB := massB
    velocityA := velocityA
    velocityB := velocityB
    radiusA := massToRadius cfg.ballRadiusBase cfg.minMass cfg.maxMass massA
    radiusB := massToRadius cfg.ballRadiusBase cfg.minMass cfg.maxMass massB
    posA := 2
    posB := 12 }

/-- The elasticity assigned to shape A (`src/generator.py` line 147):
`1.0 if self.config.collision_type == "elastic" else 0.5`. -/
def shapeElasticityA (collisionType : String) : ℚ :=
  if collisionType = "elastic" then 1 else 1 / 2

/-- The elasticity assigned to shape B (`src/generator.py` line 157), the same
expression evaluated a second time. -/
def shapeElasticityB (collisionType : String) : ℚ :=
  if collisionType = "elastic" then 1 else 1 / 2

/-- The instantaneous state of the two bodies inside the simulation. -/
structure SimState where
  posA : ℚ
  velA : ℚ
  posB : ℚ
  velB : ℚ

/-- Modelled from the spec: one `space.step(dt)` of the pymunk engine, which is
external to this repository.  Per spec §4.2: advance free-flight motion of both
bodies by `dt`, then, when the circles overlap (center distance ≤ sum of radii)
and the bodies are approaching, apply the 1D restitution impulse derived from
conservation of momentum (`j = (1+e)·(mA·mB/(mA+mB))·(vA − vB)`). -/
def stepState (mA mB rA rB e dt : ℚ) (s : SimState) : SimState :=
  let pA := s.posA + s.velA * dt
  let pB := s.posB + s.velB * dt
  if |pB - pA| ≤ rA + rB ∧ s.velB < s.velA then
    let j := (1 + e) * (mA * mB / (mA + mB)) * (s.velA - s.velB)
    { posA := pA, velA := s.velA - j / mA, posB := pB, velB := s.velB + j / mB }
  else
    { posA := pA, velA := s.velA, posB := pB, velB := s.velB }

/-- The simulation loop of `_simulate_collision` (`src/generator.py` lines
172-177): `num_steps` iterations, each stepping the space once and then
recording the state. -/
def simulateSteps (mA mB rA rB e dt : ℚ) : ℕ → SimState → List SimState
  | 0, _ => []
  | n + 1, s =>
    let s2 := stepState mA mB rA rB e dt s
    s2 :: simulateSteps mA mB rA rB e dt n s2

/-- The `trajectories` dict built by `_simulate_collision`: four parallel
per-step series. -/
structure Traj where
  positionsA : List ℚ
  positionsB : List ℚ
  velocitiesA : List ℚ
  velocitiesB : List ℚ

/-- Embedding of `_simulate_collision` (`src/generator.py` lines 130-179):
`dt = 1 / video_fps`, `num_steps = int(simulation_duration * video_fps)`,
bodies initialised from the scenario (radii converted to meters by
`pixels_per_meter`), then `num_steps` recorded steps.  The per-step physics belongs
to pymunk and is modelled from the spec (`stepState`); the restitution is the
common elasticity both shapes are assigned. -/
def simulateCollision (cfg : Config) (sc : Scenario) : Traj :=
  let dt : ℚ := 1 / (cfg.videoFps : ℚ)
  let numSteps : ℕ := (pyInt (cfg.simulationDuration * (cfg.videoFps : ℚ))).toNat
  let e : ℚ := shapeElasticityA cfg.collisionType
  let states := simulateSteps sc.massA sc.massB
    ((sc.radiusA : ℚ) / cfg.pixelsPerMeter) ((sc.radiusB : ℚ) / cfg.pixelsPerMeter)
    e dt numSteps
    { posA := sc.posA, velA := sc.velocityA, posB := sc.posB, velB := sc.velocityB }
  { positionsA := states.map (fun s => s.posA)
    positionsB := states.map (fun s => s.posB)
    velocitiesA := states.map (fun s => s.velA)
    velocitiesB := states.map (fun s => s.velB) }

/-- Python `min(l)` on a non-empty list (the empty case raises `ValueError`;
the default here is never used under the non-emptiness hypotheses below). -/
def listMin : List ℚ → ℚ
  | [] => 0
  | a :: as => as.foldl min a

/-- The list `distances = [abs(positions_b[i] - positions_a[i]) for i in range(len(positions_a))]`
(`src/generator.py` line 265). -/
def distances (positionsA positionsB : List ℚ) : List ℚ :=
  List.zipWith (fun a b => |b - a|) positionsA positionsB

/-- The index `collision_idx = distances.index(min(distances))` (`src/generator.py`
line 266): the first index attaining the minimum center distance. -/
def collisionIdxOf (positionsA positionsB : List ℚ) : ℕ :=
  (distances positionsA positionsB).indexOf (listMin (distances positionsA positionsB))

/-- The in-frame test of `_find_final_frame_index` (`src/generator.py` lines
278-279): both bodies within `[radius_margin, 14 - radius_margin]`, where
`radius_margin = radius / pixels_per_meter`. -/
def inFramePair (ppm : ℚ) (rA rB : ℤ) (positionsA positionsB : List ℚ) (i : ℕ) : Bool :=
  let worldWidth : ℚ := 14
  let marginA := (rA : ℚ) / ppm
  let marginB := (rB : ℚ) / ppm
  let posA := positionsA.getD i 0
  let posB := positionsB.getD i 0
  decide (marginA ≤ posA ∧ posA ≤ worldWidth - marginA) &&
    decide (marginB ≤ posB ∧ posB ≤ worldWidth - marginB)

/-- The tier-1 test (`src/generator.py` lines 277-285): in frame and
`abs(pos_b - pos_a) >= 2.0`. -/
def tier1Ok (ppm : ℚ) (rA rB : ℤ) (positionsA positionsB : List ℚ) (i : ℕ) : Bool :=
  inFramePair ppm rA rB positionsA positionsB i &&
    decide ((2 : ℚ) ≤ |positionsB.getD i 0 - positionsA.getD i 0|)

/-- The three ordered fallback tiers of `_find_final_frame_index`: take the
tier-1 hit if any, else the tier-2 hit if any, else the last-resort value. -/
def selectFromTiers (t1 t2 : Option ℕ) (fallback : ℕ) : ℕ :=
  match t1 with
  | some i => i
  | none =>
    match t2 with
    | some i => i
    | none => fallback

/-- Embedding of `_find_final_frame_index` (`src/generator.py` lines 245-300).  Tier 1 scans
`range(collision_idx, len(positions_a))` forward for the first in-frame,
well-separated index; tier 2 scans `range(len(positions_a) - 1, collision_idx, -1)`
backward for the first in-frame index; tier 3 is
`min(collision_idx + 10, len(positions_a) - 1)`.  On an empty trajectory the
Python code raises (`min` of an empty sequence), modelled as `none`. -/
def findFinalFrameIndex (ppm : ℚ) (rA rB : ℤ) (positionsA positionsB : List ℚ) : Option ℕ :=
  if positionsA.isEmpty then none
  else
    let n := positionsA.length
    let c := collisionIdxOf positionsA positionsB
    some (selectFromTiers
      ((List.range' c (n - c)).find? (tier1Ok ppm rA rB positionsA positionsB))
      (((List.range' (c + 1) (n - 1 - c)).reverse).find? (inFramePair ppm rA rB positionsA positionsB))
      (min (c + 10) (n - 1)))

/-- Python f-string formatting of a float with format spec .1f: the value rounded to one decimal place and printed
with exactly one digit after the point.  (At exact ties Python rounds the
underlying double half-to-even; `round` here rounds half up — every formatted
value appearing in a theorem below is an exact multiple of 1/10, where the two
conventions agree.) -/
def fmt1 (x : ℚ) : String :=
  let n : ℤ := round (10 * x)
  let sign := if n < 0 then ("-") else ("")
  sign ++ toString (n.natAbs / 10) ++ "." ++ toString (n.natAbs % 10)

/-- The four template strings built in `get_prompt` (`src/prompts.py` lines
36-44), with the f-string interpolations spelled out via `fmt1`. -/
def templates (massA velocityA massB velocityB : ℚ) (collisionType : String) : List String :=
  let dirA := if velocityA > 0 then ("right") else ("left")
  let dirB := if velocityB > 0 then ("right") else ("left")
  let absVelA := |velocityA|
  let absVelB := |velocityB|
  [ "Two balls collide " ++ collisionType ++ "ally. Ball A (mass " ++ fmt1 massA ++
      "kg) moves " ++ dirA ++ " at " ++ fmt1 absVelA ++ " m/s. Ball B (mass " ++
      fmt1 massB ++ "kg) moves " ++ dirB ++ " at " ++ fmt1 absVelB ++
      " m/s. Predict the collision outcome.",
    "Ball A (" ++ fmt1 massA ++ "kg, " ++ fmt1 absVelA ++ " m/s " ++ dirA ++
      ") and Ball B (" ++ fmt1 massB ++ "kg, " ++ fmt1 absVelB ++ " m/s " ++ dirB ++
      ") undergo an " ++ collisionType ++
      " collision. Show the final velocities after impact.",
    "In an " ++ collisionType ++ " collision, Ball A (mass=" ++ fmt1 massA ++
      "kg, velocity=" ++ fmt1 velocityA ++ " m/s) collides with Ball B (mass=" ++
      fmt1 massB ++ "kg, velocity=" ++ fmt1 velocityB ++
      " m/s). Animate the collision and resulting motion.",
    "Predict the result of an " ++ collisionType ++
      " collision between two balls: Ball A (" ++ fmt1 massA ++ "kg) traveling " ++
      dirA ++ " at " ++ fmt1 absVelA ++ " m/s, and Ball B (" ++ fmt1 massB ++
      "kg) traveling " ++ dirB ++ " at " ++ fmt1 absVelB ++ " m/s." ]

/-- Embedding of `get_prompt` (`src/prompts.py` lines 12-46).  The final
`random.choice(templates)` reads the hidden global RNG; its draw is made
explicit as the index `choice` (the `getD` default is unreachable since the
template list has length 4). -/
def get_prompt (massA velocityA massB velocityB : ℚ) (collisionType : String)
    (choice : Fin 4) : String :=
  (templates massA velocityA massB velocityB collisionType).getD choice.val ("")

/-- Modelled from the spec: the `TaskPair` record of the `core` framework
(imported by `src/generator.py` but not part of `src/`), with images kept
abstract. -/
structure TaskPairM (Img : Type) where
  taskId : String
  domain : String
  prompt : String
  firstImage : Img
  finalImage : Img
  groundTruthVideo : Option String

/-- Modelled from the spec: the `__init__` guard (`src/generator.py` lines
32-35) — `self.video_generator` is set only when `config.generate_videos` and
`VideoGenerator.is_available()` both hold; `VideoGenerator` lives in the
`core` framework outside `src/`, so its availability is an explicit flag. -/
def videoGeneratorEnabled (cfg : Config) (encoderAvailable : Bool) : Bool :=
  cfg.generateVideos && encoderAvailable

/-- Embedding of `generate_task_pair` (`src/generator.py` lines 43-77).  The renderer and
video encoder are `core`-framework collaborators outside `src/`; modelled from
the spec as abstract functions `renderInitial`, `renderFinal`, `makeVideo`.
Video is produced only when `config.generate_videos` holds and the video
generator was initialised (`videoGeneratorEnabled`). -/
def generateTaskPair (Img : Type) (renderInitial : Scenario → Img)
    (renderFinal : Scenario → Traj → Img)
    (makeVideo : Scenario → Traj → String → Option String)
    (cfg : Config) (encoderAvailable : Bool)
    (u1 u2 u3 u4 : ℚ) (promptChoice : Fin 4) (taskId : String) : TaskPairM Img :=
  let collisionData := generateCollisionScenario cfg u1 u2 u3 u4
  let trajectories := simulateCollision cfg collisionData
  let firstImage := renderInitial collisionData
  let finalImage := renderFinal collisionData trajectories
  let videoPath : Option String :=
    if cfg.generateVideos && videoGeneratorEnabled cfg encoderAvailable then
      makeVideo collisionData trajectories taskId
    else none
  { taskId := taskId
    domain := cfg.domain
    prompt := get_prompt collisionData.massA collisionData.velocityA
      collisionData.massB collisionData.velocityB cfg.collisionType promptChoice
    firstImage := firstImage
    finalImage := finalImage
    groundTruthVideo := videoPath }

theorem foldl_min_le_init (a : ℚ) (as : List ℚ) : as.foldl min a ≤ a := by
  induction as generalizing a with
  | nil => exact le_refl a
  | cons b bs ih => exact le_trans (ih (min a b)) (min_le_left a b)

theorem foldl_min_le_mem (a x : ℚ) (as : List ℚ) (hx : x ∈ as) : as.foldl min a ≤ x := by
  induction as generalizing a with
  | nil => cases hx
  | cons b bs ih =>
    rcases List.mem_cons.mp hx with h | h
    · subst h
      exact le_trans (foldl_min_le_init (min a x) bs) (min_le_right a x)
    · exact ih (min a b) h

theorem foldl_min_mem (a : ℚ) (as : List ℚ) : as.foldl min a = a ∨ as.foldl min a ∈ as := by
  induction as generalizing a with
  | nil => exact Or.inl rfl
  | cons b bs ih =>
    rcases ih (min a b) with h | h
    · rcases min_choice a b with hm | hm
      · exact Or.inl (by rw [List.foldl_cons, h, hm])
      · exact Or.inr (by rw [List.foldl_cons, h, hm]; exact List.mem_cons_self b bs)
    · exact Or.inr (List.mem_cons_of_mem b h)

theorem listMin_le (l : List ℚ) (x : ℚ) (hx : x ∈ l) : listMin l ≤ x := by
  cases l with
  | nil => cases hx
  | cons a as =>
    rcases List.mem_cons.mp hx with h | h
    · subst h; exact foldl_min_le_init x as
    · exact foldl_min_le_mem a x as h

theorem listMin_mem (l : List ℚ) (h : l ≠ []) : listMin l ∈ l := by
  cases l with
  | nil => exact absurd rfl h
  | cons a as =>
    rcases foldl_min_mem a as with h2 | h2
    · rw [listMin, h2]; exact List.mem_cons_self a as
    · exact List.mem_cons_of_mem a h2

theorem indexOf_lt_of_mem {a : ℚ} {l : List ℚ} (h : a ∈ l) : l.indexOf a < l.length :=
  List.indexOf_lt_length.mpr h

theorem getElem_ne_of_lt_indexOf {a : ℚ} {l : List ℚ} {j : ℕ} (hj : j < l.indexOf a)
    (hjl : j < l.length) : l[j] ≠ a := by
  have hb : (l[j] == a) = false := List.not_of_lt_findIdx hj
  simpa using hb

theorem find?_range'_eq_some (p : ℕ → Bool) (s n i : ℕ) (hsi : s ≤ i) (hin : i < s + n)
    (hp : p i = true) (hmin : ∀ j, s ≤ j → j < i → p j = false) :
    (List.range' s n).find? p = some i := by
  induction n generalizing s with
  | zero => omega
  | succ m ih =>
    rw [show List.range' s (m + 1) = s :: List.range' (s + 1) m from rfl]
    by_cases hs : s = i
    · subst hs
      exact List.find?_cons_of_pos _ hp
    · have hsi2 : s + 1 ≤ i := by omega
      have hps : p s = false := hmin s (le_refl s) (by omega)
      rw [List.find?_cons_of_neg _ (by simp [hps])]
      exact ih (s + 1) hsi2 (by omega) (fun j h1 h2 => hmin j (by omega) h2)

theorem simulateSteps_length (mA mB rA rB e dt : ℚ) (n : ℕ) (s : SimState) :
    (simulateSteps mA mB rA rB e dt n s).length = n := by
  induction n generalizing s with
  | zero => rfl
  | succ m ih => simp [simulateSteps, ih]

theorem momentum_impulse (mA mB vA vB j : ℚ) (hA : mA ≠ 0) (hB : mB ≠ 0) :
    mA * (vA - j / mA) + mB * (vB + j / mB) = mA * vA + mB * vB := by
  field_simp
  ring

theorem stepState_momentum (mA mB rA rB e dt : ℚ) (hA : mA ≠ 0) (hB : mB ≠ 0)
    (s : SimState) :
    mA * (stepState mA mB rA rB e dt s).velA + mB * (stepState mA mB rA rB e dt s).velB =
      mA * s.velA + mB * s.velB := by
  rw [stepState]
  split
  · exact momentum_impulse mA mB s.velA s.velB _ hA hB
  · rfl

theorem simulateSteps_momentum (mA mB rA rB e dt : ℚ) (hA : mA ≠ 0) (hB : mB ≠ 0)
    (n : ℕ) (s : SimState) (t : SimState)
    (ht : t ∈ simulateSteps mA mB rA rB e dt n s) :
    mA * t.velA + mB * t.velB = mA * s.velA + mB * s.velB := by
  induction n generalizing s with
  | zero => cases ht
  | succ m ih =>
    rcases List.mem_cons.mp ht with h | h
    · subst h
      exact stepState_momentum mA mB rA rB e dt hA hB s
    · exact (ih _ h).trans (stepState_momentum mA mB rA rB e dt hA hB s)

theorem simulateCollision_lengths (cfg : Config) (sc : Scenario) :
    (simulateCollision cfg sc).positionsA.length =
      (pyInt (cfg.simulationDuration * (cfg.videoFps : ℚ))).toNat ∧
    (simulateCollision cfg sc).positionsB.length =
      (pyInt (cfg.simulationDuration * (cfg.videoFps : ℚ))).toNat ∧
    (simulateCollision cfg sc).velocitiesA.length =
      (pyInt (cfg.simulationDuration * (cfg.videoFps : ℚ))).toNat ∧
    (simulateCollision cfg sc).velocitiesB.length =
      (pyInt (cfg.simulationDuration * (cfg.videoFps : ℚ))).toNat := by
  refine ⟨?_, ?_, ?_, ?_⟩ <;> simp [simulateCollision, simulateSteps_length]

theorem simulateSteps_momentum_getD (mA mB rA rB e dt : ℚ) (hA : mA ≠ 0) (hB : mB ≠ 0)
    (n k : ℕ) (s : SimState) (hk : k < n) :
    mA * ((simulateSteps mA mB rA rB e dt n s).map (fun t => t.velA)).getD k 0 +
      mB * ((simulateSteps mA mB rA rB e dt n s).map (fun t => t.velB)).getD k 0 =
      mA * s.velA + mB * s.velB := by
  have hlen := simulateSteps_length mA mB rA rB e dt n s
  have hk0 : k < (simulateSteps mA mB rA rB e dt n s).length := by omega
  have hk1 : k < ((simulateSteps mA mB rA rB e dt n s).map (fun t => t.velA)).length := by
    simpa using hk0
  have hk2 : k < ((simulateSteps mA mB rA rB e dt n s).map (fun t => t.velB)).length := by
    simpa using hk0
  rw [List.getD_eq_getElem _ _ hk1, List.getD_eq_getElem _ _ hk2,
    List.getElem_map, List.getElem_map]
  exact simulateSteps_momentum mA mB rA rB e dt hA hB n s _ (List.getElem_mem hk0)

/-- C3 (amended): every trajectory produced by `_simulate_collision` has
exactly `int(simulation_duration * video_fps)` entries (Python `int`,
i.e. truncation toward zero — not `round`) in each of its four series, with
the sample rate given by `video_fps`. -/
theorem c3_trajectory_length_truncated (cfg : Config) (sc : Scenario) :
    (simulateCollision cfg sc).positionsA.length =
      (pyInt (cfg.simulationDuration * (cfg.videoFps : ℚ))).toNat ∧
    (simulateCollision cfg sc).positionsB.length =
      (pyInt (cfg.simulationDuration * (cfg.videoFps : ℚ))).toNat ∧
    (simulateCollision cfg sc).velocitiesA.length =
      (pyInt (cfg.simulationDuration * (cfg.videoFps : ℚ))).toNat ∧
    (simulateCollision cfg sc).velocitiesB.length =
      (pyInt (cfg.simulationDuration * (cfg.videoFps : ℚ))).toNat :=
  simulateCollision_lengths cfg sc

/-- C3 counterexample: with `simulation_duration = 1.75` and `video_fps = 10`
the code produces `int(17.5) = 17` entries, while
`round(duration × sample_rate) = 18`. -/
theorem c3_counterexample :
    (simulateCollision { defaultConfig with simulationDuration := 7 / 4 }
      { massA := 1, massB := 1, velocityA := 2, velocityB := -2,
        radiusA := 21, radiusB := 21, posA := 2, posB := 12 }).positionsA.length ≠
      (round (((7 : ℚ) / 4) * 10)).toNat := by
  have h := (simulateCollision_lengths { defaultConfig with simulationDuration := 7 / 4 }
    { massA := 1, massB := 1, velocityA := 2, velocityB := -2,
      radiusA := 21, radiusB := 21, posA := 2, posB := 12 }).1
  rw [h]
  norm_num [pyInt, defaultConfig, round_eq]
  decide

theorem simulateCollision_momentum_getD (cfg : Config) (sc : Scenario)
    (hA : sc.massA ≠ 0) (hB : sc.massB ≠ 0) (k : ℕ)
    (hk : k < (pyInt (cfg.simulationDuration * (cfg.videoFps : ℚ))).toNat) :
    sc.massA * (simulateCollision cfg sc).velocitiesA.getD k 0 +
      sc.massB * (simulateCollision cfg sc).velocitiesB.getD k 0 =
      sc.massA * sc.velocityA + sc.massB * sc.velocityB := by
  simp only [simulateCollision]
  exact simulateSteps_momentum_getD _ _ _ _ _ _ hA hB _ k _ hk

/-- C6: total momentum at the first recorded step equals total momentum at the
last recorded step, within a 1e-3 relative tolerance (it is in fact conserved
exactly by the modelled impulse). -/
theorem c6_momentum_conserved (cfg : Config) (sc : Scenario)
    (hA : 0 < sc.massA) (hB : 0 < sc.massB)
    (hne : (simulateCollision cfg sc).velocitiesA ≠ []) :
    |(sc.massA * (simulateCollision cfg sc).velocitiesA.getD
        ((simulateCollision cfg sc).velocitiesA.length - 1) 0 +
      sc.massB * (simulateCollision cfg sc).velocitiesB.getD
        ((simulateCollision cfg sc).velocitiesB.length - 1) 0) -
      (sc.massA * (simulateCollision cfg sc).velocitiesA.getD 0 0 +
        sc.massB * (simulateCollision cfg sc).velocitiesB.getD 0 0)| ≤
      (1 / 1000) *
        |sc.massA * (simulateCollision cfg sc).velocitiesA.getD 0 0 +
          sc.massB * (simulateCollision cfg sc).velocitiesB.getD 0 0| := by
  obtain ⟨h1, h2, h3, h4⟩ := simulateCollision_lengths cfg sc
  have hpos : 0 < (pyInt (cfg.simulationDuration * (cfg.videoFps : ℚ))).toNat := by
    rw [← h3]
    exact List.length_pos.mpr hne
  rw [h3, h4]
  rw [simulateCollision_momentum_getD cfg sc (ne_of_gt hA) (ne_of_gt hB) _ (by omega),
    simulateCollision_momentum_getD cfg sc (ne_of_gt hA) (ne_of_gt hB) 0 hpos]
  simp only [sub_self, abs_zero]
  positivity

/-- C6 witness: the default configuration with unit masses satisfies the
hypotheses of `c6_momentum_conserved`. -/
theorem c6_momentum_conserved_witness :
    |((1 : ℚ) * (simulateCollision defaultConfig
        { massA := 1, massB := 1, velocityA := 2, velocityB := -2,
          radiusA := 21, radiusB := 21, posA := 2, posB := 12 }).velocitiesA.getD
        ((simulateCollision defaultConfig
          { massA := 1, massB := 1, velocityA := 2, velocityB := -2,
            radiusA := 21, radiusB := 21, posA := 2, posB := 12 }).velocitiesA.length - 1) 0 +
      (1 : ℚ) * (simulateCollision defaultConfig
        { massA := 1, massB := 1, velocityA := 2, velocityB := -2,
          radiusA := 21, radiusB := 21, posA := 2, posB := 12 }).velocitiesB.getD
        ((simulateCollision defaultConfig
          { massA := 1, massB := 1, velocityA := 2, velocityB := -2,
            radiusA := 21, radiusB := 21, posA := 2, posB := 12 }).velocitiesB.length - 1) 0) -
      ((1 : ℚ) * (simulateCollision defaultConfig
        { massA := 1, massB := 1, velocityA := 2, velocityB := -2,
          radiusA := 21, radiusB := 21, posA := 2, posB := 12 }).velocitiesA.getD 0 0 +
        (1 : ℚ) * (simulateCollision defaultConfig
          { massA := 1, massB := 1, velocityA := 2, velocityB := -2,
            radiusA := 21, radiusB := 21, posA := 2, posB := 12 }).velocitiesB.getD 0 0)| ≤
      (1 / 1000) *
        |(1 : ℚ) * (simulateCollision defaultConfig
          { massA := 1, massB := 1, velocityA := 2, velocityB := -2,
            radiusA := 21, radiusB := 21, posA := 2, posB := 12 }).velocitiesA.getD 0 0 +
          (1 : ℚ) * (simulateCollision defaultConfig
            { massA := 1, massB := 1, velocityA := 2, velocityB := -2,
              radiusA := 21, radiusB := 21, posA := 2, posB := 12 }).velocitiesB.getD 0 0| :=
  c6_momentum_conserved defaultConfig
    { massA := 1, massB := 1, velocityA := 2, velocityB := -2,
      radiusA := 21, radiusB := 21, posA := 2, posB := 12 }
    (by norm_num) (by norm_num)
    (by
      have h := (simulateCollision_lengths defaultConfig
        { massA := 1, massB := 1, velocityA := 2, velocityB := -2,
          radiusA := 21, radiusB := 21, posA := 2, posB := 12 }).2.2.1
      intro hcon
      rw [hcon] at h
      norm_num [pyInt, defaultConfig] at h
      omega)

theorem distances_length (pa pb : List ℚ) (hlen : pa.length = pb.length) :
    (distances pa pb).length = pa.length := by
  simp [distances, hlen]

theorem distances_ne_nil (pa pb : List ℚ) (hne : pa ≠ []) (hlen : pa.length = pb.length) :
    distances pa pb ≠ [] := by
  intro h
  have h2 := distances_length pa pb hlen
  rw [h] at h2
  exact hne (List.length_eq_zero.mp h2.symm)

theorem collisionIdxOf_lt_length (pa pb : List ℚ) (hne : pa ≠ [])
    (hlen : pa.length = pb.length) : collisionIdxOf pa pb < pa.length := by
  have hds := distances_ne_nil pa pb hne hlen
  have hmem := listMin_mem _ hds
  have h := indexOf_lt_of_mem hmem
  have hdl := distances_length pa pb hlen
  rw [collisionIdxOf]
  omega

/-- C1: on any non-empty trajectory, `_find_final_frame_index` returns an
index `i` with `0 ≤ i < N`, whichever of the three fallback tiers produces
it. -/
theorem c1_returns_valid_index (ppm : ℚ) (rA rB : ℤ) (pa pb : List ℚ)
    (hne : pa ≠ []) (hlen : pa.length = pb.length) :
    ∃ i, findFinalFrameIndex ppm rA rB pa pb = some i ∧ i < pa.length := by
  have hc := collisionIdxOf_lt_length pa pb hne hlen
  have hn1 : 1 ≤ pa.length := List.length_pos.mpr hne
  rw [findFinalFrameIndex, if_neg (by simpa [List.isEmpty_iff] using hne)]
  refine ⟨_, rfl, ?_⟩
  rcases hfind : (List.range' (collisionIdxOf pa pb)
      (pa.length - collisionIdxOf pa pb)).find? (tier1Ok ppm rA rB pa pb) with _ | i
  · rcases hfind2 : ((List.range' (collisionIdxOf pa pb + 1)
        (pa.length - 1 - collisionIdxOf pa pb)).reverse).find?
          (inFramePair ppm rA rB pa pb) with _ | i
    · simp only [selectFromTiers, hfind, hfind2]
      omega
    · have hm := List.mem_of_find?_eq_some hfind2
      rw [List.mem_reverse] at hm
      have hb := List.mem_range'_1.mp hm
      simp only [selectFromTiers, hfind, hfind2]
      omega
  · have hm := List.mem_of_find?_eq_some hfind
    have hb := List.mem_range'_1.mp hm
    simp only [selectFromTiers, hfind]
    omega

/-- C1 witness: a concrete two-frame trajectory. -/
theorem c1_returns_valid_index_witness :
    ∃ i, findFinalFrameIndex 50 21 21 [2, 3] [12, 11] = some i ∧ i < ([2, 3] : List ℚ).length :=
  c1_returns_valid_index 50 21 21 [2, 3] [12, 11] (by simp) (by simp)

/-- C2: whenever some index at or after the collision index passes the
in-frame and separation tests, `_find_final_frame_index` returns the smallest
such index. -/
theorem c2_returns_first_separated (ppm : ℚ) (rA rB : ℤ) (pa pb : List ℚ)
    (hne : pa ≠ []) (hlen : pa.length = pb.length) (i : ℕ)
    (hci : collisionIdxOf pa pb ≤ i) (hin : i < pa.length)
    (hp : tier1Ok ppm rA rB pa pb i = true)
    (hfirst : ∀ j, collisionIdxOf pa pb ≤ j → j < i → tier1Ok ppm rA rB pa pb j = false) :
    findFinalFrameIndex ppm rA rB pa pb = some i := by
  have hfind : (List.range' (collisionIdxOf pa pb)
      (pa.length - collisionIdxOf pa pb)).find? (tier1Ok ppm rA rB pa pb) = some i :=
    find?_range'_eq_some _ _ _ _ hci (by omega) hp hfirst
  rw [findFinalFrameIndex, if_neg (by simpa [List.isEmpty_iff] using hne)]
  simp only [selectFromTiers, hfind]

/-- C2 witness: on the concrete trajectory `[2, 3]`, `[12, 11]` the first
(and only) post-collision index passing the tier-1 test is 1. -/
theorem c2_returns_first_separated_witness :
    findFinalFrameIndex 50 21 21 [2, 3] [12, 11] = some 1 :=
  c2_returns_first_separated 50 21 21 [2, 3] [12, 11] (by simp) (by simp) 1
    (by
      norm_num [collisionIdxOf, distances, listMin, List.indexOf, List.findIdx, List.findIdx.go]
      decide)
    (by simp)
    (by norm_num [tier1Ok, inFramePair])
    (fun j h1 h2 => by
      exfalso
      have : collisionIdxOf [2, 3] [12, 11] = 1 := by
        norm_num [collisionIdxOf, distances, listMin, List.indexOf, List.findIdx, List.findIdx.go]
        decide
      omega)

/-- C9: `distances.index(min(distances))` anchors the selection at the
earliest index attaining the minimum center distance: the collision index
attains the minimum, every index holds a distance at least the minimum, and
every strictly earlier index holds a strictly larger distance. -/
theorem c9_collision_idx_earliest_minimizer (pa pb : List ℚ)
    (hne : pa ≠ []) (hlen : pa.length = pb.length) :
    (distances pa pb).getD (collisionIdxOf pa pb) 0 = listMin (distances pa pb) ∧
    (∀ j, j < (distances pa pb).length →
      listMin (distances pa pb) ≤ (distances pa pb).getD j 0) ∧
    (∀ j, j < collisionIdxOf pa pb →
      (distances pa pb).getD j 0 ≠ listMin (distances pa pb)) := by
  have hds := distances_ne_nil pa pb hne hlen
  have hmem := listMin_mem _ hds
  have hIdx : collisionIdxOf pa pb < (distances pa pb).length := indexOf_lt_of_mem hmem
  refine ⟨?_, ?_, ?_⟩
  · rw [List.getD_eq_getElem _ _ hIdx]
    exact List.getElem_indexOf hIdx
  · intro j hj
    rw [List.getD_eq_getElem _ _ hj]
    exact listMin_le _ _ (List.getElem_mem hj)
  · intro j hj
    have hjl : j < (distances pa pb).length := lt_trans hj hIdx
    rw [List.getD_eq_getElem _ _ hjl]
    exact getElem_ne_of_lt_indexOf hj hjl

/-- C9 witness: on the concrete trajectory `[2, 3]`, `[12, 11]` the distances
are `[10, 8]`, whose earliest minimizer is index 1. -/
theorem c9_collision_idx_earliest_minimizer_witness :
    (distances [2, 3] [12, 11]).getD (collisionIdxOf [2, 3] [12, 11]) 0 =
      listMin (distances [2, 3] [12, 11]) ∧
    (∀ j, j < (distances [2, 3] [12, 11]).length →
      listMin (distances [2, 3] [12, 11]) ≤ (distances [2, 3] [12, 11]).getD j 0) ∧
    (∀ j, j < collisionIdxOf [2, 3] [12, 11] →
      (distances [2, 3] [12, 11]).getD j 0 ≠ listMin (distances [2, 3] [12, 11])) :=
  c9_collision_idx_earliest_minimizer [2, 3] [12, 11] (by simp) (by simp)

/-- C4 (amended): `_mass_to_radius` returns `int(...)` of the linear
interpolation, i.e. its floor on the nonnegative range — within 1 below the
exact interpolant — and at the endpoints it returns `⌊0.7·base⌋` resp.
`⌊1.3·base⌋` (equal to `0.7·base` resp. `1.3·base` exactly only when those
are integers, as with the default base 30). -/
theorem c4_mass_to_radius_truncated_interp (base : ℤ) (minM maxM m : ℚ)
    (hbase : 0 ≤ base) (hlt : minM < maxM) (h1 : minM ≤ m) (h2 : m ≤ maxM) :
    specLinearRadius (base : ℚ) minM maxM m - 1 < (massToRadius base minM maxM m : ℚ) ∧
    (massToRadius base minM maxM m : ℚ) ≤ specLinearRadius (base : ℚ) minM maxM m ∧
    massToRadius base minM maxM minM = ⌊(base : ℚ) * (7 / 10)⌋ ∧
    massToRadius base minM maxM maxM = ⌊(base : ℚ) * (13 / 10)⌋ := by
  have hd : 0 < maxM - minM := by linarith
  have hb : (0 : ℚ) ≤ (base : ℚ) := by exact_mod_cast hbase
  have ht0 : 0 ≤ (m - minM) / (maxM - minM) := div_nonneg (by linarith) (le_of_lt hd)
  have key : specLinearRadius (base : ℚ) minM maxM m =
      (base : ℚ) * (7 / 10) + (base : ℚ) * (6 / 10) * ((m - minM) / (maxM - minM)) := by
    rw [specLinearRadius]
    ring
  have hv0 : 0 ≤ specLinearRadius (base : ℚ) minM maxM m := by
    rw [key]
    have hp1 : 0 ≤ (base : ℚ) * (7 / 10) := mul_nonneg hb (by norm_num)
    have hp2 : 0 ≤ (base : ℚ) * (6 / 10) * ((m - minM) / (maxM - minM)) :=
      mul_nonneg (mul_nonneg hb (by norm_num)) ht0
    linarith
  have hmr : massToRadius base minM maxM m = pyInt (specLinearRadius (base : ℚ) minM maxM m) :=
    rfl
  refine ⟨?_, ?_, ?_, ?_⟩
  · rw [hmr, pyInt, if_pos hv0]
    exact Int.sub_one_lt_floor _
  · rw [hmr, pyInt, if_pos hv0]
    exact Int.floor_le _
  · simp only [massToRadius]
    have harg : (base : ℚ) * (7 / 10) +
        ((base : ℚ) * (13 / 10) - (base : ℚ) * (7 / 10)) * ((minM - minM) / (maxM - minM)) =
        (base : ℚ) * (7 / 10) := by
      rw [sub_self, zero_div, mul_zero, add_zero]
    rw [harg, pyInt, if_pos (mul_nonneg hb (by norm_num))]
  · simp only [massToRadius]
    have harg : (base : ℚ) * (7 / 10) +
        ((base : ℚ) * (13 / 10) - (base : ℚ) * (7 / 10)) * ((maxM - minM) / (maxM - minM)) =
        (base : ℚ) * (13 / 10) := by
      rw [div_self (ne_of_gt hd)]
      ring
    rw [harg, pyInt, if_pos (mul_nonneg hb (by norm_num))]

/-- C4 counterexample: with the default configuration (base 30, masses in
`[1, 5]`) and `m = 2`, the interpolant is `25.5` but the code returns `25`. -/
theorem c4_counterexample :
    ((massToRadius 30 1 5 2 : ℤ) : ℚ) ≠ specLinearRadius 30 1 5 2 := by
  norm_num [massToRadius, specLinearRadius, pyInt]

/-- C4 witness: the amended statement at base 30, masses `[1, 5]`, `m = 2`. -/
theorem c4_mass_to_radius_truncated_interp_witness :
    specLinearRadius ((30 : ℤ) : ℚ) 1 5 2 - 1 < (massToRadius 30 1 5 2 : ℚ) ∧
    (massToRadius 30 1 5 2 : ℚ) ≤ specLinearRadius ((30 : ℤ) : ℚ) 1 5 2 ∧
    massToRadius 30 1 5 1 = ⌊((30 : ℤ) : ℚ) * (7 / 10)⌋ ∧
    massToRadius 30 1 5 5 = ⌊((30 : ℤ) : ℚ) * (13 / 10)⌋ :=
  c4_mass_to_radius_truncated_interp 30 1 5 2 (by norm_num) (by norm_num)
    (by norm_num) (by norm_num)

/-- C5: with `0 < min_velocity ≤ max_velocity`, every sampled scenario has
`velocity_a > 0` and `velocity_b < 0`, for every value of the uniform draws. -/
theorem c5_approach_guarantee (cfg : Config) (u1 u2 u3 u4 : ℚ)
    (hmin : 0 < cfg.minVelocity) (hle : cfg.minVelocity ≤ cfg.maxVelocity)
    (hu3a : 0 ≤ u3) (hu4a : 0 ≤ u4) :
    0 < (generateCollisionScenario cfg u1 u2 u3 u4).velocityA ∧
    (generateCollisionScenario cfg u1 u2 u3 u4).velocityB < 0 := by
  have hA : 0 < pyUniform cfg.minVelocity cfg.maxVelocity u3 := by
    rw [pyUniform]
    nlinarith [mul_nonneg (sub_nonneg.mpr hle) hu3a]
  have hB : 0 < pyUniform cfg.minVelocity cfg.maxVelocity u4 := by
    rw [pyUniform]
    nlinarith [mul_nonneg (sub_nonneg.mpr hle) hu4a]
  constructor
  · simpa only [generateCollisionScenario] using hA
  · simp only [generateCollisionScenario]
    exact neg_neg_of_pos hB

/-- C5 witness: the default configuration with mid-range draws. -/
theorem c5_approach_guarantee_witness :
    0 < (generateCollisionScenario defaultConfig (1/2) (1/2) (1/2) (1/2)).velocityA ∧
    (generateCollisionScenario defaultConfig (1/2) (1/2) (1/2) (1/2)).velocityB < 0 :=
  c5_approach_guarantee defaultConfig (1/2) (1/2) (1/2) (1/2)
    (by norm_num [defaultConfig]) (by norm_num [defaultConfig]) (by norm_num) (by norm_num)

/-- C7 counterexample: `get_prompt` reads the hidden RNG through
`random.choice`; at the same argument tuple, draw 0 and draw 1 yield
different strings, so two calls need not agree. -/
theorem c7_counterexample :
    get_prompt 3 5 2 (-4) "elastic" ⟨0, by norm_num⟩ ≠
      get_prompt 3 5 2 (-4) "elastic" ⟨1, by norm_num⟩ := by
  simp only [get_prompt, templates, fmt1]
  norm_num [round_eq]
  decide

/-- C7 (amended): `get_prompt` is deterministic only given the hidden RNG
draw: for a fixed draw it is a function of the argument tuple, and its output
is always one of the four templates instantiated at that tuple. -/
theorem c7_prompt_determined_by_draw (massA velocityA massB velocityB : ℚ)
    (ct : String) (choice : Fin 4) :
    get_prompt massA velocityA massB velocityB ct choice ∈
      templates massA velocityA massB velocityB ct := by
  rw [get_prompt]
  have hc : choice.val < (templates massA velocityA massB velocityB ct).length :=
    choice.isLt
  rw [List.getD_eq_getElem _ _ hc]
  exact List.getElem_mem hc

/-- C8: when the video encoder backend is unavailable, `generate_task_pair`
still returns a complete task pair — both images are exactly the renderer
outputs for the sampled scenario, `ground_truth_video` is `None`, and the
function is total so encoder absence never raises. -/
theorem c8_no_video_backend (Img : Type) (renderInitial : Scenario → Img)
    (renderFinal : Scenario → Traj → Img)
    (makeVideo : Scenario → Traj → String → Option String)
    (cfg : Config) (encoderAvailable : Bool) (u1 u2 u3 u4 : ℚ)
    (promptChoice : Fin 4) (taskId : String)
    (hunavail : encoderAvailable = false) :
    (generateTaskPair Img renderInitial renderFinal makeVideo cfg encoderAvailable
      u1 u2 u3 u4 promptChoice taskId).groundTruthVideo = none ∧
    (generateTaskPair Img renderInitial renderFinal makeVideo cfg encoderAvailable
      u1 u2 u3 u4 promptChoice taskId).firstImage =
      renderInitial (generateCollisionScenario cfg u1 u2 u3 u4) ∧
    (generateTaskPair Img renderInitial renderFinal makeVideo cfg encoderAvailable
      u1 u2 u3 u4 promptChoice taskId).finalImage =
      renderFinal (generateCollisionScenario cfg u1 u2 u3 u4)
        (simulateCollision cfg (generateCollisionScenario cfg u1 u2 u3 u4)) := by
  subst hunavail
  refine ⟨?_, rfl, rfl⟩
  simp [generateTaskPair, videoGeneratorEnabled]

/-- C8 witness: a concrete instantiation with trivial renderers and the
default configuration. -/
theorem c8_no_video_backend_witness :
    (generateTaskPair Unit (fun _ => ()) (fun _ _ => ()) (fun _ _ _ => none)
      defaultConfig false (1/2) (1/2) (1/2) (1/2) ⟨0, by norm_num⟩
      "task_000").groundTruthVideo = none ∧
    (generateTaskPair Unit (fun _ => ()) (fun _ _ => ()) (fun _ _ _ => none)
      defaultConfig false (1/2) (1/2) (1/2) (1/2) ⟨0, by norm_num⟩
      "task_000").firstImage =
      (fun _ : Scenario => ()) (generateCollisionScenario defaultConfig (1/2) (1/2) (1/2) (1/2)) ∧
    (generateTaskPair Unit (fun _ => ()) (fun _ _ => ()) (fun _ _ _ => none)
      defaultConfig false (1/2) (1/2) (1/2) (1/2) ⟨0, by norm_num⟩
      "task_000").finalImage =
      (fun _ : Scenario => fun _ : Traj => ())
        (generateCollisionScenario defaultConfig (1/2) (1/2) (1/2) (1/2))
        (simulateCollision defaultConfig
          (generateCollisionScenario defaultConfig (1/2) (1/2) (1/2) (1/2))) :=
  c8_no_video_backend Unit (fun _ => ()) (fun _ _ => ()) (fun _ _ _ => none)
    defaultConfig false (1/2) (1/2) (1/2) (1/2) ⟨0, by norm_num⟩ "task_000" rfl

/-- C10: any `collision_type` other than exactly `"elastic"` silently receives
elasticity 0.5 on both shapes, and the simulation still proceeds to produce a
full-length trajectory — no error is raised for unrecognized types. -/
theorem c10_unrecognized_collision_type (ct : String) (hct : ct ≠ "elastic") :
    shapeElasticityA ct = 1 / 2 ∧ shapeElasticityB ct = 1 / 2 ∧
    ∀ cfg : Config, cfg.collisionType = ct → ∀ sc : Scenario,
      (simulateCollision cfg sc).positionsA.length =
        (pyInt (cfg.simulationDuration * (cfg.videoFps : ℚ))).toNat := by
  refine ⟨by simp [shapeElasticityA, hct], by simp [shapeElasticityB, hct], ?_⟩
  intro cfg hcfg sc
  exact (simulateCollision_lengths cfg sc).1

/-- C10 witness: the misspelled collision type `"bouncy"`. -/
theorem c10_unrecognized_collision_type_witness :
    shapeElasticityA ("bouncy") = 1 / 2 ∧ shapeElasticityB ("bouncy") = 1 / 2 ∧
    (simulateCollision { defaultConfig with collisionType := "bouncy" }
      { massA := 1, massB := 1, velocityA := 2, velocityB := -2,
        radiusA := 21, radiusB := 21, posA := 2, posB := 12 }).positionsA.length =
      (pyInt ((3 : ℚ) * ((10 : ℤ) : ℚ))).toNat := by
  obtain ⟨ha, hb, hc⟩ := c10_unrecognized_collision_type ("bouncy") (by decide)
  exact ⟨ha, hb, hc _ rfl _⟩
